import Mathlib

set_option maxHeartbeats 1000000

/-
  Verification development for the MEGAN-MD session orchestrator.

  Shallow embedding of the connection lifecycle manager (megan.js),
  the SQLite message cache (src/lib/cache/MessageCache.js),
  the command registry dispatcher (src/lib/Commandhandler.js),
  the chatbot module (src/modules/Chatbot.js), and the outgoing
  message footer transform (megan.js sendMessage).
-/

namespace Megan

/-! ## Shared configuration (config/config.js fields used by the core) -/

structure BotConfig where
  PREFIX : String
  CHANNEL_LINK : String
  BOT_NAME : String
deriving DecidableEq

/-! ## JS value helpers

JS treats the empty string as falsy; `a || b` on strings yields `b`
when `a` is absent or empty. -/

def strTruthy : Option String → Bool
  | some s => s != ""
  | none => false

def jsOrStr (o : Option String) (d : String) : String :=
  match o with
  | some s => if s = "" then d else s
  | none => d

/-! ## Connection lifecycle manager (megan.js, handleConnectionUpdate)

State machine fields of MeganBot: connectionState, reconnectAttempts,
maxReconnectAttempts (constructor, megan.js lines 48-50). -/

inductive ConnPhase
  | disconnected
  | connecting
  | connected
deriving DecidableEq

structure ConnState where
  connectionState : ConnPhase
  reconnectAttempts : Nat
  maxReconnectAttempts : Nat
deriving DecidableEq

/-- Side effect requested by the close branch of handleConnectionUpdate:
schedule a deferred reconnect, terminate the process (process.exit(1)),
or do nothing further. -/
inductive CloseAction
  | scheduleReconnect (delay : Nat)
  | exitProcess
  | noAction
deriving DecidableEq

/-- The `connection === 'close'` branch of handleConnectionUpdate
(megan.js lines 211-231).  `statusCode` is
`lastDisconnect?.error?.output?.statusCode` (`none` when absent).
`shouldReconnect` is `statusCode !== 401`. -/
def handleConnectionClose (s : ConnState) (statusCode : Option Nat) :
    ConnState × CloseAction :=
  let s1 : ConnState := { s with connectionState := ConnPhase.disconnected }
  if statusCode ≠ some 401 ∧ s.reconnectAttempts < s.maxReconnectAttempts then
    let attempts := s.reconnectAttempts + 1
    let delay := min (1000 * 2 ^ attempts) 30000
    ({ s1 with reconnectAttempts := attempts },
      CloseAction.scheduleReconnect delay)
  else if statusCode = some 401 then
    (s1, CloseAction.exitProcess)
  else
    (s1, CloseAction.noAction)

/-- First statement of connect() (megan.js line 78): the connection state
is set to connecting before any work is attempted. -/
def connectStart (s : ConnState) : ConnState :=
  { s with connectionState := ConnPhase.connecting }

/-- Effect of running the action returned by the close branch: a scheduled
reconnect later invokes connect(), which enters the connecting phase. -/
def applyCloseAction (s : ConnState) (a : CloseAction) : ConnState :=
  match a with
  | CloseAction.scheduleReconnect _ => connectStart s
  | _ => s

/-- Session state as built by the MeganBot constructor: connected with
zero reconnect attempts and a maximum of 10. -/
def initialConnState : ConnState :=
  { connectionState := ConnPhase.connected
    reconnectAttempts := 0
    maxReconnectAttempts := 10 }

/-- State after n consecutive connection closes with reason `code`,
each close followed by running its scheduled action. -/
def closeTraceState (code : Option Nat) : Nat → ConnState
  | 0 => initialConnState
  | n + 1 =>
    applyCloseAction (handleConnectionClose (closeTraceState code n) code).1
      (handleConnectionClose (closeTraceState code n) code).2

/-- The action produced by the Nth close (N ≥ 1) in such a sequence. -/
def nthCloseAction (code : Option Nat) (n : Nat) : CloseAction :=
  (handleConnectionClose (closeTraceState code (n - 1)) code).2

/-! ## Message data model (Baileys message shape as read by the cache) -/

structure ExtendedTextMessage where
  text : Option String := none
deriving DecidableEq

structure ImageMessage where
  caption : Option String := none
  viewOnce : Bool := false
deriving DecidableEq

structure VideoMessage where
  caption : Option String := none
  viewOnce : Bool := false
deriving DecidableEq

structure AudioMessage where
  viewOnce : Bool := false
deriving DecidableEq

structure DocumentMessage where
  caption : Option String := none
  title : Option String := none
deriving DecidableEq

structure MessageContent where
  conversation : Option String := none
  extendedTextMessage : Option ExtendedTextMessage := none
  imageMessage : Option ImageMessage := none
  videoMessage : Option VideoMessage := none
  audioMessage : Option AudioMessage := none
  documentMessage : Option DocumentMessage := none
  stickerMessage : Bool := false
  viewOnceMessage : Bool := false
deriving DecidableEq

structure MessageKey where
  id : String
  remoteJid : String
  participant : Option String := none
  fromMe : Bool := false
deriving DecidableEq

structure WAMessage where
  key : MessageKey
  message : Option MessageContent := none
  pushName : Option String := none
  messageTimestamp : Option Nat := none
deriving DecidableEq

/-! ## Message cache (src/lib/cache/MessageCache.js) -/

/-- detectMessageType (MessageCache.js lines 206-215).  Object fields are
truthy when present; `conversation` is a string, truthy when nonempty. -/
def detectMessageType (msg : WAMessage) : String :=
  match msg.message with
  | none => "unknown"
  | some m =>
    if m.imageMessage.isSome then "image"
    else if m.videoMessage.isSome then "video"
    else if m.audioMessage.isSome then "audio"
    else if m.documentMessage.isSome then "document"
    else if m.stickerMessage then "sticker"
    else if strTruthy m.conversation || m.extendedTextMessage.isSome then "text"
    else "unknown"

/-- checkViewOnce (MessageCache.js lines 217-224). -/
def checkViewOnce (msg : WAMessage) : Bool :=
  match msg.message with
  | none => false
  | some m =>
    (m.imageMessage.map (·.viewOnce)).getD false
    || (m.videoMessage.map (·.viewOnce)).getD false
    || (m.audioMessage.map (·.viewOnce)).getD false
    || m.viewOnceMessage

/-- extractText (MessageCache.js lines 226-234): conversation, then
extended-text body, then image caption, then video caption, then
document caption; empty string otherwise. -/
def extractText (msg : WAMessage) : String :=
  match msg.message with
  | none => ""
  | some m =>
    if strTruthy m.conversation then m.conversation.getD ""
    else if strTruthy (m.extendedTextMessage.bind (·.text)) then
      (m.extendedTextMessage.bind (·.text)).getD ""
    else if strTruthy (m.imageMessage.bind (·.caption)) then
      (m.imageMessage.bind (·.caption)).getD ""
    else if strTruthy (m.videoMessage.bind (·.caption)) then
      (m.videoMessage.bind (·.caption)).getD ""
    else if strTruthy (m.documentMessage.bind (·.caption)) then
      (m.documentMessage.bind (·.caption)).getD ""
    else ""

/-- One row of the SQLite `messages` table (initDatabase, lines 29-41).
`id` is the PRIMARY KEY.  `messageData` holds the serialized original
message (the JSON round trip is modelled as the identity). -/
structure CachedRow where
  id : String
  chatId : String
  senderId : String
  senderName : String
  timestamp : Nat
  messageType : String
  textContent : String
  isViewOnce : Bool
  messageData : WAMessage
deriving DecidableEq

/-- Cache state: the table rows (id unique), plus the in-memory stats
counter `totalMessages`.  `dbReady` models the `initialized` flag. -/
structure MessageCacheState where
  db : List CachedRow
  totalMessages : Nat
  dbReady : Bool
deriving DecidableEq

/-- The row built by addMessage (lines 67-75).  `now` stands for
Date.now(); the JS expression `msg.messageTimestamp * 1000 || Date.now()`
falls back to `now` when the timestamp is absent or zero. -/
def rowOf (now : Nat) (msg : WAMessage) : CachedRow :=
  { id := msg.key.id
    chatId := msg.key.remoteJid
    senderId := jsOrStr msg.key.participant msg.key.remoteJid
    senderName := jsOrStr msg.pushName "Unknown"
    timestamp :=
      match msg.messageTimestamp with
      | some t => if t * 1000 = 0 then now else t * 1000
      | none => now
    messageType := detectMessageType msg
    textContent := extractText msg
    isViewOnce := checkViewOnce msg
    messageData := msg }

/-- addMessage (MessageCache.js lines 62-102): no-op when the store is
not ready or the message has no payload; otherwise INSERT OR REPLACE
keyed on the `id` PRIMARY KEY, and increment totalMessages. -/
def addMessage (s : MessageCacheState) (now : Nat) (msg : WAMessage) :
    MessageCacheState × Option CachedRow :=
  if s.dbReady = false ∨ msg.message = none then (s, none)
  else
    let row := rowOf now msg
    ({ s with
        db := row :: s.db.filter (fun r => r.id != row.id)
        totalMessages := s.totalMessages + 1 },
      some row)

/-- getMessage (MessageCache.js lines 105-144): SELECT by id, narrowed
by chatId when supplied; not-found is `none`. -/
def getMessage (s : MessageCacheState) (messageId : String)
    (chatId : Option String) : Option CachedRow :=
  if s.dbReady = false then none
  else
    s.db.find? (fun r =>
      r.id == messageId &&
        (match chatId with
         | some c => r.chatId == c
         | none => true))

/-! ## Spec-side derivation rules for the cached record (claim C5) -/

/-- Extraction rule exactly as the claim words it: conversation text,
then caption of media (image, video, document), then the
quoted/extended-text body; first match wins, empty string if none. -/
def extractTextClaimRule (m : MessageContent) : String :=
  if strTruthy m.conversation then m.conversation.getD ""
  else if strTruthy (m.imageMessage.bind (·.caption)) then
    (m.imageMessage.bind (·.caption)).getD ""
  else if strTruthy (m.videoMessage.bind (·.caption)) then
    (m.videoMessage.bind (·.caption)).getD ""
  else if strTruthy (m.documentMessage.bind (·.caption)) then
    (m.documentMessage.bind (·.caption)).getD ""
  else if strTruthy (m.extendedTextMessage.bind (·.text)) then
    (m.extendedTextMessage.bind (·.text)).getD ""
  else ""

/-- Amended extraction rule: conversation text, then the
quoted/extended-text body, then caption of media (image, video,
document); first match wins, empty string if none. -/
def extractTextAmendedRule (m : MessageContent) : String :=
  if strTruthy m.conversation then m.conversation.getD ""
  else if strTruthy (m.extendedTextMessage.bind (·.text)) then
    (m.extendedTextMessage.bind (·.text)).getD ""
  else if strTruthy (m.imageMessage.bind (·.caption)) then
    (m.imageMessage.bind (·.caption)).getD ""
  else if strTruthy (m.videoMessage.bind (·.caption)) then
    (m.videoMessage.bind (·.caption)).getD ""
  else if strTruthy (m.documentMessage.bind (·.caption)) then
    (m.documentMessage.bind (·.caption)).getD ""
  else ""

/-- Kind derivation rule as the spec words it: image, video, audio,
document, sticker checked in order on presence; text when conversation
text or an extended-text node is present; unknown otherwise. -/
def messageKindRule (m : MessageContent) : String :=
  if m.imageMessage.isSome then "image"
  else if m.videoMessage.isSome then "video"
  else if m.audioMessage.isSome then "audio"
  else if m.documentMessage.isSome then "document"
  else if m.stickerMessage then "sticker"
  else if strTruthy m.conversation || m.extendedTextMessage.isSome then "text"
  else "unknown"

/-! ## Command registry and dispatcher (src/lib/Commandhandler.js) -/

/-- Invocation context built by handleCommand (lines 170-180); the bot
back-reference and config handle are not part of the value model. -/
structure CommandCtx where
  msg : WAMessage
  fromJid : String
  sender : String
  args : List String
  text : String
  isGroup : Bool
  command : String

/-- One registry entry (loadCommands, lines 56-74).  `execute` may fail
with an execution error, modelled as `Except.error` carrying
`error.message`. -/
structure Command where
  name : String
  description : String
  usage : String
  category : String
  execute : CommandCtx → Except String String

/-- Result object returned by handleCommand. -/
structure CommandResult where
  success : Bool
  message : Option String
  command : Option String
deriving DecidableEq

/-- Whitespace as recognised by JS String.prototype.trim (restricted to
the ASCII whitespace that can occur in chat text). -/
def jsWhitespace (c : Char) : Bool :=
  c = ' ' || c = '\t' || c = '\n' || c = '\r'

/-- JS `s.trim()`: strip leading and trailing whitespace. -/
def jsTrim (s : String) : String :=
  String.mk (((s.data.dropWhile jsWhitespace).reverse.dropWhile
    jsWhitespace).reverse)

/-- JS `s.slice(n)`. -/
def jsSlice (s : String) (n : Nat) : String :=
  String.mk (s.data.drop n)

/-- JS `c.toLowerCase()` on one character (ASCII case fold). -/
def jsToLowerChar (c : Char) : Char :=
  if 'A' ≤ c ∧ c ≤ 'Z' then Char.ofNat (c.toNat + 32) else c

/-- JS `s.toLowerCase()` (ASCII case fold). -/
def jsToLower (s : String) : String :=
  String.mk (s.data.map jsToLowerChar)

/-- Splitting on single spaces, as String.split on the space predicate. -/
def splitOnSpaceAux : List Char → List (List Char)
  | [] => [[]]
  | c :: rest =>
    let r := splitOnSpaceAux rest
    if c = ' ' then [] :: r
    else
      match r with
      | [] => [[c]]
      | t :: ts => (c :: t) :: ts

/-- JS `text.split(/ +/)` on an already trimmed string: runs of spaces
separate tokens, and the empty string splits to one empty token. -/
def jsSplitSpaces (s : String) : List String :=
  if s = "" then [""]
  else ((splitOnSpaceAux s.data).map String.mk).filter (fun t => t ≠ "")

/-- `text.slice(PREFIX.length).trim().split(/ +/)[0].toLowerCase()`
(Commandhandler.js line 154): on a trimmed string the first split token
is the run of characters before the first space. -/
def commandNameOf (p text : String) : String :=
  jsToLower (String.mk
    ((jsTrim (jsSlice text p.data.length)).data.takeWhile (fun c => c ≠ ' ')))

/-- `text.slice(PREFIX.length + commandName.length).trim().split(/ +/)`
(Commandhandler.js line 155). -/
def argsOf (p text : String) : List String :=
  jsSplitSpaces
    (jsTrim (jsSlice text (p.data.length + (commandNameOf p text).data.length)))

/-- The structured not-found message (Commandhandler.js line 162). -/
def unknownCommandMessage (p : String) : String :=
  "❌ Unknown command. Type " ++ p ++ "menu for available commands."

/-- The context object passed to command.execute (lines 170-180). -/
def invocationCtx (cfg : BotConfig) (msg : WAMessage)
    (text fromJid sender : String) (isGroup : Bool) : CommandCtx :=
  { msg := msg
    fromJid := fromJid
    sender := sender
    args := argsOf cfg.PREFIX text
    text := text
    isGroup := isGroup
    command := commandNameOf cfg.PREFIX text }

/-- handleCommand (Commandhandler.js lines 153-195).  The registry is a
name-keyed table (JS Map), modelled as an association list; it is
returned unchanged alongside the result (the source never mutates
`this.commands` during dispatch).  The try/catch around execute makes
the function total: an execute failure becomes a structured failure
result carrying the error message. -/
def handleCommand (cfg : BotConfig) (commands : List (String × Command))
    (msg : WAMessage) (text fromJid sender : String) (isGroup : Bool) :
    CommandResult × List (String × Command) :=
  let commandName := commandNameOf cfg.PREFIX text
  match commands.lookup commandName with
  | none =>
    ({ success := false
       message := some (unknownCommandMessage cfg.PREFIX)
       command := none }, commands)
  | some cmd =>
    match cmd.execute (invocationCtx cfg msg text fromJid sender isGroup) with
    | Except.ok r =>
      ({ success := true
         message := some (if r = "" then "✅ Command executed." else r)
         command := some commandName }, commands)
    | Except.error e =>
      ({ success := false
         message := some ("❌ Error: " ++ e)
         command := none }, commands)

/-! ## Chatbot module (src/modules/Chatbot.js) -/

structure HistEntry where
  role : String
  message : String
  timestamp : Nat
deriving DecidableEq

/-- this.maxHistory (Chatbot.js line 18). -/
def maxHistory : Nat := 10

/-- addToHistory on one user entry list (Chatbot.js lines 44-56):
push, then keep only the last maxHistory entries
(`history.slice(-this.maxHistory)`). -/
def addToHistory (h : List HistEntry) (e : HistEntry) : List HistEntry :=
  let h2 := h ++ [e]
  if maxHistory < h2.length then h2.drop (h2.length - maxHistory) else h2

/-- The per-user history map (`this.history`), with the absent-key
default `[]` of getHistory folded in. -/
def HistStore : Type := String → List HistEntry

def emptyHist : HistStore := fun _ => []

def addToHistoryStore (s : HistStore) (userId : String) (e : HistEntry) :
    HistStore :=
  fun u => if u = userId then addToHistory (s userId) e else s u

/-- getHistory (Chatbot.js lines 59-61). -/
def getHistory (s : HistStore) (userId : String) : List HistEntry :=
  s userId

/-- A sequence of addToHistory calls, applied in order. -/
def applyHistCalls (s : HistStore) (calls : List (String × HistEntry)) :
    HistStore :=
  calls.foldl (fun acc c => addToHistoryStore acc c.1 c.2) s

/-- Result object of a provider handler and of Chatbot.chat. -/
structure ChatProviderResult where
  success : Bool
  response : String
  provider : String
  error : Option String := none
deriving DecidableEq

/-- The fixed fallback response pool (Chatbot.js lines 252-264);
`prompt.substring(0, n)` is `String.take n`. -/
def fallbackResponses (prompt : String) : List String :=
  [ "I understand you said: \"" ++ prompt.take 50 ++ "...\""
  , "Processing your message..."
  , "Thanks for your message! How can I assist you further?"
  , "I heard: \"" ++ prompt.take 30 ++ "\" - could you elaborate?"
  , "That\x27s interesting! Tell me more."
  , "I\x27m here to help! What else would you like to know?"
  , "Got it! Is there anything specific you\x27d like me to help with?" ]

/-- fallbackResponse: `Math.floor(Math.random() * responses.length)` is
modelled by the explicit random index `rand`. -/
def fallbackResponse (prompt : String) (rand : Fin 7) : String :=
  (fallbackResponses prompt).getD rand.val ""

/-- Result value of Chatbot.chat (lines 191-249), with the selected
provider handler passed as a function of the prompt.  When the handler
result has success = false, chat returns a structured failure whose
response field is a fallback textual response.  (The history and
context bookkeeping of chat is modelled by addToHistory above.) -/
def chat (handler : String → ChatProviderResult) (prompt : String)
    (rand : Fin 7) : ChatProviderResult :=
  let result := handler prompt
  if result.success then result
  else
    { success := false
      response := fallbackResponse prompt rand
      provider := "fallback"
      error := result.error }

/-! ## Outgoing sends (megan.js, sendMessage and handleChatbot) -/

/-- JS `haystack.includes(needle)`. -/
def jsIncludes (haystack needle : String) : Prop :=
  needle.data <:+: haystack.data

instance (haystack needle : String) : Decidable (jsIncludes haystack needle) :=
  inferInstanceAs (Decidable (needle.data <:+: haystack.data))

/-- The footer appended by sendMessage. -/
def channelFooter (cfg : BotConfig) : String :=
  "\n\n📢 *" ++ cfg.BOT_NAME ++ "*\n" ++ cfg.CHANNEL_LINK

/-- The footer transform of sendMessage (megan.js lines 423-426):
append the footer only when the text is nonempty and does not already
contain the channel link. -/
def addFooter (cfg : BotConfig) (t : String) : String :=
  if t ≠ "" ∧ ¬ jsIncludes t cfg.CHANNEL_LINK then t ++ channelFooter cfg
  else t

/-- Messages sent by handleChatbot (megan.js lines 319-326): a reply is
sent only when the chat result has success = true; the reply text is the
response plus the AI-assistant banner, then the sendMessage footer
transform.  Returned as the list of (recipient, text) sends. -/
def handleChatbotSends (cfg : BotConfig) (response : ChatProviderResult)
    (fromJid : String) : List (String × String) :=
  if response.success then
    [(fromJid,
      addFooter cfg
        (response.response ++ "\n\n💬 *AI Assistant*\n" ++ cfg.CHANNEL_LINK))]
  else []

/-! ## Concrete fixtures used by witnesses and counterexamples -/

def cfgEx : BotConfig :=
  { PREFIX := "!", CHANNEL_LINK := "wa.me/channel", BOT_NAME := "MEGAN" }

def cacheS0 : MessageCacheState :=
  { db := [], totalMessages := 0, dbReady := true }

def wMsg1 : WAMessage :=
  { key := { id := "m1", remoteJid := "chat1@g.us" }
    message := some { conversation := some "first" } }

def wMsg2 : WAMessage :=
  { key := { id := "m1", remoteJid := "chat1@g.us" }
    message := some { conversation := some "second" } }

/-- A message whose payload carries both an image caption and an
extended-text body: classified as kind image by detectMessageType. -/
def cexContent : MessageContent :=
  { extendedTextMessage := some { text := some "b" }
    imageMessage := some { caption := some "a" } }

def cexMsg : WAMessage :=
  { key := { id := "m1", remoteJid := "chat1@g.us" }
    message := some cexContent }

def imgMsg : WAMessage :=
  { key := { id := "m2", remoteJid := "chat2@g.us" }
    message := some { imageMessage := some { caption := some "hello" } } }

def cmdBoom : Command :=
  { name := "ping", description := "ping", usage := "!ping"
    category := "public", execute := fun _ => Except.error "boom" }

def cmdPong : Command :=
  { name := "pong", description := "pong", usage := "!pong"
    category := "public", execute := fun _ => Except.ok "pong" }

def regEx : List (String × Command) := [("ping", cmdBoom), ("pong", cmdPong)]

def hFail : String → ChatProviderResult := fun _ =>
  { success := false, response := "", provider := "megan-fast"
    error := some "timeout of 10000ms exceeded" }

def sConnMax : ConnState :=
  { connectionState := ConnPhase.connected
    reconnectAttempts := 10
    maxReconnectAttempts := 10 }

end Megan

namespace Megan

/-! ## Helper lemmas: connection close branch -/

/-- Retryable close strictly under the attempt cap: increment the
counter and schedule a backoff-delayed reconnect. -/
theorem handleConnectionClose_retry (s : ConnState) (code : Option Nat)
    (hc : code ≠ some 401)
    (hlt : s.reconnectAttempts < s.maxReconnectAttempts) :
    handleConnectionClose s code =
      ({ connectionState := ConnPhase.disconnected
         reconnectAttempts := s.reconnectAttempts + 1
         maxReconnectAttempts := s.maxReconnectAttempts },
        CloseAction.scheduleReconnect
          (min (1000 * 2 ^ (s.reconnectAttempts + 1)) 30000)) := by
  simp [handleConnectionClose, hc, hlt]

/-- Unauthorized close (status 401): terminate the process. -/
theorem handleConnectionClose_auth (s : ConnState) (code : Option Nat)
    (hc : code = some 401) :
    handleConnectionClose s code =
      ({ s with connectionState := ConnPhase.disconnected },
        CloseAction.exitProcess) := by
  simp [handleConnectionClose, hc]

/-- Retryable close at or beyond the attempt cap: the event is absorbed
with no further action. -/
theorem handleConnectionClose_exhausted (s : ConnState) (code : Option Nat)
    (hc : code ≠ some 401)
    (hge : s.maxReconnectAttempts ≤ s.reconnectAttempts) :
    handleConnectionClose s code =
      ({ s with connectionState := ConnPhase.disconnected },
        CloseAction.noAction) := by
  have hnlt : ¬ s.reconnectAttempts < s.maxReconnectAttempts := by omega
  simp [handleConnectionClose, hc, hnlt]

theorem applyCloseAction_counters (s : ConnState) (a : CloseAction) :
    (applyCloseAction s a).reconnectAttempts = s.reconnectAttempts ∧
    (applyCloseAction s a).maxReconnectAttempts = s.maxReconnectAttempts := by
  cases a <;> simp [applyCloseAction, connectStart]

/-- Invariant of a run of retryable closes: after n closes the attempt
counter reads min n 10 and the cap stays 10. -/
theorem closeTrace_invariant (code : Option Nat) (hc : code ≠ some 401)
    (n : Nat) :
    (closeTraceState code n).reconnectAttempts = min n 10 ∧
    (closeTraceState code n).maxReconnectAttempts = 10 := by
  induction n with
  | zero => exact ⟨rfl, rfl⟩
  | succ n ih =>
    obtain ⟨ha, hm⟩ := ih
    have hstep : closeTraceState code (n + 1) =
        applyCloseAction (handleConnectionClose (closeTraceState code n) code).1
          (handleConnectionClose (closeTraceState code n) code).2 := rfl
    by_cases hlt : n < 10
    · have hlt2 : (closeTraceState code n).reconnectAttempts <
          (closeTraceState code n).maxReconnectAttempts := by
        rw [ha, hm]; omega
      rw [hstep, handleConnectionClose_retry (closeTraceState code n) code hc hlt2]
      simp only [applyCloseAction, connectStart]
      refine ⟨?_, hm⟩
      rw [ha]; omega
    · have hge : (closeTraceState code n).maxReconnectAttempts ≤
          (closeTraceState code n).reconnectAttempts := by
        rw [ha, hm]; omega
      rw [hstep, handleConnectionClose_exhausted (closeTraceState code n) code hc hge]
      simp only [applyCloseAction]
      refine ⟨?_, hm⟩
      rw [ha]; omega

end Megan

namespace Megan

/-! ## Claim theorems: connection lifecycle -/

/-- C2: in a sequence of retryable connection closes, the Nth reconnect
attempt is scheduled after a delay of min(1000 ms × 2^N, 30000 ms), the
attempt counter is incremented to N on that try, and no reconnect
attempt is produced beyond the maximum attempt count of 10. -/
theorem reconnect_backoff_bounded (code : Option Nat) (hc : code ≠ some 401)
    (N : Nat) :
    (1 ≤ N → N ≤ 10 →
      nthCloseAction code N =
        CloseAction.scheduleReconnect (min (1000 * 2 ^ N) 30000) ∧
      (closeTraceState code N).reconnectAttempts = N) ∧
    (10 < N → nthCloseAction code N = CloseAction.noAction) := by
  obtain ⟨ha, hm⟩ := closeTrace_invariant code hc (N - 1)
  constructor
  · intro h1 h2
    have hlt : (closeTraceState code (N - 1)).reconnectAttempts <
        (closeTraceState code (N - 1)).maxReconnectAttempts := by
      rw [ha, hm]; omega
    have hr := handleConnectionClose_retry (closeTraceState code (N - 1)) code hc hlt
    constructor
    · rw [nthCloseAction, hr, ha]
      have hN : min (N - 1) 10 + 1 = N := by omega
      rw [hN]
    · rw [(closeTrace_invariant code hc N).1]; omega
  · intro h10
    have hge : (closeTraceState code (N - 1)).maxReconnectAttempts ≤
        (closeTraceState code (N - 1)).reconnectAttempts := by
      rw [ha, hm]; omega
    rw [nthCloseAction, handleConnectionClose_exhausted _ _ hc hge]

/-- Witness for C2 at close reason 408 and N = 3: the third attempt is
scheduled after min(1000 × 2^3, 30000) = 8000 ms and the counter reads 3. -/
theorem reconnect_backoff_bounded_witness :
    nthCloseAction (some 408) 3 =
      CloseAction.scheduleReconnect (min (1000 * 2 ^ 3) 30000) ∧
    (closeTraceState (some 408) 3).reconnectAttempts = 3 :=
  (reconnect_backoff_bounded (some 408) (by decide) 3).1 (by decide) (by decide)

/-- C3: the terminal-invalid outcome (session invalid, process exit, no
further reconnect) is produced by a connection close exactly when the
close reason is status 401; for every other close reason, while the
attempt counter is under the cap, the scheduled reconnect brings the
state machine back to connecting. -/
theorem terminal_invalid_only_unauthorized (s : ConnState) (code : Option Nat) :
    ((handleConnectionClose s code).2 = CloseAction.exitProcess ↔
      code = some 401) ∧
    (code ≠ some 401 → s.reconnectAttempts < s.maxReconnectAttempts →
      (applyCloseAction (handleConnectionClose s code).1
        (handleConnectionClose s code).2).connectionState =
        ConnPhase.connecting) := by
  constructor
  · constructor
    · intro h
      by_contra hne
      by_cases hlt : s.reconnectAttempts < s.maxReconnectAttempts
      · rw [handleConnectionClose_retry s code hne hlt] at h
        exact CloseAction.noConfusion h
      · rw [handleConnectionClose_exhausted s code hne (by omega)] at h
        exact CloseAction.noConfusion h
    · intro h
      rw [handleConnectionClose_auth s code h]
  · intro hne hlt
    rw [handleConnectionClose_retry s code hne hlt]
    simp [applyCloseAction, connectStart]

/-- Witness for C3 at close reason 500 with 2 of 10 attempts used: the
close is not terminal and the machine returns to connecting. -/
theorem terminal_invalid_only_unauthorized_witness :
    ((handleConnectionClose ⟨ConnPhase.connected, 2, 10⟩ (some 500)).2 =
        CloseAction.exitProcess ↔ some 500 = some 401) ∧
    (applyCloseAction
        (handleConnectionClose ⟨ConnPhase.connected, 2, 10⟩ (some 500)).1
        (handleConnectionClose ⟨ConnPhase.connected, 2, 10⟩ (some 500)).2).connectionState =
      ConnPhase.connecting :=
  ⟨(terminal_invalid_only_unauthorized ⟨ConnPhase.connected, 2, 10⟩ (some 500)).1,
    (terminal_invalid_only_unauthorized ⟨ConnPhase.connected, 2, 10⟩ (some 500)).2
      (by decide) (by decide)⟩

/-- C4 counterexample: a retryable close (reason 408) arriving with the
attempt counter at the maximum (10 of 10) does not terminate the
process; the close is absorbed with no further action. -/
theorem exhausted_close_not_exit_cex :
    (handleConnectionClose sConnMax (some 408)).2 = CloseAction.noAction ∧
    (handleConnectionClose sConnMax (some 408)).2 ≠ CloseAction.exitProcess := by
  exact ⟨by decide, by decide⟩

/-- C4 amended: whenever a retryable connection close occurs after the
reconnect-attempt count has reached the configured maximum, the close
event is absorbed with no further action — no reconnect is scheduled and
the process does not terminate; the state is left disconnected. -/
theorem exhausted_retryable_close_absorbed (s : ConnState) (code : Option Nat)
    (hc : code ≠ some 401)
    (hge : s.maxReconnectAttempts ≤ s.reconnectAttempts) :
    handleConnectionClose s code =
      ({ s with connectionState := ConnPhase.disconnected },
        CloseAction.noAction) :=
  handleConnectionClose_exhausted s code hc hge

/-- Witness for the amended C4 at reason 408 with 10 of 10 attempts. -/
theorem exhausted_retryable_close_absorbed_witness :
    handleConnectionClose sConnMax (some 408) =
      ({ sConnMax with connectionState := ConnPhase.disconnected },
        CloseAction.noAction) :=
  exhausted_retryable_close_absorbed sConnMax (some 408) (by decide) (by decide)

end Megan

namespace Megan

/-! ## Claim theorems: message cache -/

/-- C1: two addMessage calls with the same (message id, chat id) key and
different content: the later write replaces the prior record — the
subsequent getMessage on that key returns exactly the record of the
second write — and the total-message counter is incremented by both
writes, including the overwriting one. -/
theorem addMessage_last_write_wins
    (s : MessageCacheState) (now1 now2 : Nat) (m1 m2 : WAMessage)
    (hready : s.dbReady = true)
    (h1 : m1.message ≠ none) (h2 : m2.message ≠ none)
    (hne : m1 ≠ m2)
    (hid : m1.key.id = m2.key.id) (hchat : m1.key.remoteJid = m2.key.remoteJid) :
    getMessage ((addMessage ((addMessage s now1 m1).1) now2 m2).1)
        m2.key.id (some m2.key.remoteJid) = some (rowOf now2 m2) ∧
    ((addMessage ((addMessage s now1 m1).1) now2 m2).1).totalMessages =
      ((addMessage s now1 m1).1).totalMessages + 1 ∧
    ((addMessage s now1 m1).1).totalMessages = s.totalMessages + 1 := by
  have hg1 : ¬ (s.dbReady = false ∨ m1.message = none) := by
    simp [hready, h1]
  have hs1 : (addMessage s now1 m1).1 =
      { s with
          db := rowOf now1 m1 :: s.db.filter (fun r => r.id != (rowOf now1 m1).id)
          totalMessages := s.totalMessages + 1 } := by
    rw [addMessage, if_neg hg1]
  have hg2 : ¬ (((addMessage s now1 m1).1).dbReady = false ∨ m2.message = none) := by
    rw [hs1]; simp [hready, h2]
  have hs2 : (addMessage ((addMessage s now1 m1).1) now2 m2).1 =
      { (addMessage s now1 m1).1 with
          db := rowOf now2 m2 ::
            ((addMessage s now1 m1).1).db.filter (fun r => r.id != (rowOf now2 m2).id)
          totalMessages := ((addMessage s now1 m1).1).totalMessages + 1 } := by
    rw [addMessage, if_neg hg2]
  refine ⟨?_, ?_, ?_⟩
  · rw [hs2, getMessage]
    rw [hs1]
    simp only [hready]
    rw [if_neg (by simp)]
    rw [List.find?_cons_of_pos]
    simp [rowOf]
  · rw [hs2]
  · rw [hs1]

end Megan

namespace Megan

/-- C5 counterexample: the message cexMsg carries both an image caption
"a" and an extended-text body "b".  Ingesting it and reading it back
yields extracted text "b" (the code checks the extended-text body before
media captions), while the priority order stated by the claim
(conversation, then caption of media, then quoted/extended-text body)
derives "a". -/
theorem extract_priority_cex :
    (getMessage ((addMessage cacheS0 5 cexMsg).1) "m1"
        (some "chat1@g.us")).map (fun r => r.textContent) = some "b" ∧
    extractTextClaimRule cexContent = "a" ∧
    ("b" : String) ≠ "a" := by
  exact ⟨rfl, rfl, by decide⟩

/-- C5 amended: for every input message with a payload — covering the
text, image, video, audio, document, sticker and unknown shapes —
addMessage followed immediately by getMessage with the same (id, chatId)
returns a record whose kind matches the fixed presence-ordered kind rule
and whose extracted text follows the priority order: conversation text,
then the quoted/extended-text body, then the caption of media (image,
video, document); first match wins, empty string if none apply. -/
theorem cached_record_matches_derivation
    (s : MessageCacheState) (now : Nat) (msg : WAMessage) (m : MessageContent)
    (hready : s.dbReady = true) (hm : msg.message = some m) :
    ∃ r, getMessage ((addMessage s now msg).1) msg.key.id
          (some msg.key.remoteJid) = some r ∧
      r.messageType = messageKindRule m ∧
      r.textContent = extractTextAmendedRule m := by
  have hg : ¬ (s.dbReady = false ∨ msg.message = none) := by
    simp [hready, hm]
  have hs : (addMessage s now msg).1 =
      { s with
          db := rowOf now msg :: s.db.filter (fun r => r.id != (rowOf now msg).id)
          totalMessages := s.totalMessages + 1 } := by
    rw [addMessage, if_neg hg]
  refine ⟨rowOf now msg, ?_, ?_, ?_⟩
  · rw [hs, getMessage]
    simp only [hready]
    rw [if_neg (by simp)]
    rw [List.find?_cons_of_pos]
    simp [rowOf]
  · show (rowOf now msg).messageType = messageKindRule m
    simp only [rowOf, detectMessageType, hm, messageKindRule]
  · show (rowOf now msg).textContent = extractTextAmendedRule m
    simp only [rowOf, extractText, hm, extractTextAmendedRule]

/-- Witness for the amended C5: an image message with caption "hello" is
cached with kind image and extracted text "hello". -/
theorem cached_record_matches_derivation_witness :
    ∃ r, getMessage ((addMessage cacheS0 7 imgMsg).1) imgMsg.key.id
          (some imgMsg.key.remoteJid) = some r ∧
      r.messageType =
        messageKindRule { imageMessage := some { caption := some "hello" } } ∧
      r.textContent =
        extractTextAmendedRule { imageMessage := some { caption := some "hello" } } :=
  cached_record_matches_derivation cacheS0 7 imgMsg
    { imageMessage := some { caption := some "hello" } } rfl rfl

end Megan

namespace Megan

/-! ## Claim theorems: command dispatch -/

/-- C6: when the first whitespace-separated token of the post-prefix
text (case-folded) names no registered command, handleCommand returns
the structured not-found result — it never raises, being a total
function whose only failure source (command.execute) is not reached —
and the not-found message contains the configured prefix and the menu
command as a hint.  The registry is returned untouched. -/
theorem handleCommand_unknown
    (cfg : BotConfig) (commands : List (String × Command)) (msg : WAMessage)
    (text fromJid sender : String) (isGroup : Bool)
    (h : commands.lookup (commandNameOf cfg.PREFIX text) = none) :
    handleCommand cfg commands msg text fromJid sender isGroup =
      ({ success := false
         message := some (unknownCommandMessage cfg.PREFIX)
         command := none }, commands) ∧
    jsIncludes (unknownCommandMessage cfg.PREFIX) cfg.PREFIX ∧
    jsIncludes (unknownCommandMessage cfg.PREFIX) "menu" := by
  refine ⟨?_, ?_, ?_⟩
  · rw [handleCommand, h]
  · show cfg.PREFIX.data <:+: (unknownCommandMessage cfg.PREFIX).data
    have hdata : (unknownCommandMessage cfg.PREFIX).data =
        "❌ Unknown command. Type ".data ++ cfg.PREFIX.data ++
          ("menu" ++ " for available commands.").data := by
      simp [unknownCommandMessage, String.data_append, List.append_assoc]
    rw [hdata]
    exact ⟨"❌ Unknown command. Type ".data,
      ("menu" ++ " for available commands.").data, by simp⟩
  · show ("menu").data <:+: (unknownCommandMessage cfg.PREFIX).data
    have hdata : (unknownCommandMessage cfg.PREFIX).data =
        ("❌ Unknown command. Type ".data ++ cfg.PREFIX.data) ++
          "menu".data ++ " for available commands.".data := by
      simp [unknownCommandMessage, String.data_append, List.append_assoc]
    rw [hdata]
    exact ⟨"❌ Unknown command. Type ".data ++ cfg.PREFIX.data,
      " for available commands.".data, rfl⟩

/-- Witness for C6: dispatching "!zzz" against the sample registry
(which has only ping and pong) yields the not-found result naming the
prefix and menu. -/
theorem handleCommand_unknown_witness :
    handleCommand cfgEx regEx wMsg1 "!zzz" "chat1@g.us" "u@s.whatsapp.net" false =
      ({ success := false
         message := some (unknownCommandMessage cfgEx.PREFIX)
         command := none }, regEx) ∧
    jsIncludes (unknownCommandMessage cfgEx.PREFIX) cfgEx.PREFIX ∧
    jsIncludes (unknownCommandMessage cfgEx.PREFIX) "menu" :=
  handleCommand_unknown cfgEx regEx wMsg1 "!zzz" "chat1@g.us" "u@s.whatsapp.net"
    false (by rfl)

/-- C7: when the resolved command exists and its execute body fails,
handleCommand returns a structured failure carrying the error message
text, the registry entry is still present afterwards, and dispatching on
the returned registry behaves exactly as on the original (the registry
is never mutated by dispatch). -/
theorem handleCommand_execute_failure
    (cfg : BotConfig) (commands : List (String × Command)) (msg : WAMessage)
    (text fromJid sender : String) (isGroup : Bool) (cmd : Command) (e : String)
    (hlook : commands.lookup (commandNameOf cfg.PREFIX text) = some cmd)
    (hfail : cmd.execute (invocationCtx cfg msg text fromJid sender isGroup) =
      Except.error e) :
    handleCommand cfg commands msg text fromJid sender isGroup =
      ({ success := false
         message := some ("❌ Error: " ++ e)
         command := none }, commands) ∧
    (handleCommand cfg commands msg text fromJid sender isGroup).2.lookup
        (commandNameOf cfg.PREFIX text) = some cmd ∧
    (∀ (msg2 : WAMessage) (text2 from2 sender2 : String) (g2 : Bool),
      handleCommand cfg
          (handleCommand cfg commands msg text fromJid sender isGroup).2
          msg2 text2 from2 sender2 g2 =
        handleCommand cfg commands msg2 text2 from2 sender2 g2) := by
  have hstep : handleCommand cfg commands msg text fromJid sender isGroup =
      (match cmd.execute (invocationCtx cfg msg text fromJid sender isGroup) with
       | Except.ok r =>
         ({ success := true
            message := some (if r = "" then "✅ Command executed." else r)
            command := some (commandNameOf cfg.PREFIX text) }, commands)
       | Except.error e2 =>
         ({ success := false
            message := some ("❌ Error: " ++ e2)
            command := none }, commands)) := by
    rw [handleCommand, hlook]
  have hmain : handleCommand cfg commands msg text fromJid sender isGroup =
      ({ success := false
         message := some ("❌ Error: " ++ e)
         command := none }, commands) := by
    rw [hstep, hfail]
  refine ⟨hmain, ?_, ?_⟩
  · rw [hmain]; exact hlook
  · intro msg2 text2 from2 sender2 g2
    rw [hmain]

/-- Witness for C7: dispatching "!ping" against the sample registry,
whose ping entry always fails with "boom", yields the structured error
result, keeps ping registered, and a follow-up dispatch is unaffected. -/
theorem handleCommand_execute_failure_witness :
    handleCommand cfgEx regEx wMsg1 "!ping" "chat1@g.us" "u@s.whatsapp.net" false =
      ({ success := false
         message := some ("❌ Error: " ++ "boom")
         command := none }, regEx) ∧
    (handleCommand cfgEx regEx wMsg1 "!ping" "chat1@g.us" "u@s.whatsapp.net"
        false).2.lookup (commandNameOf cfgEx.PREFIX "!ping") = some cmdBoom ∧
    handleCommand cfgEx
        (handleCommand cfgEx regEx wMsg1 "!ping" "chat1@g.us" "u@s.whatsapp.net"
          false).2 wMsg2 "!pong" "chat1@g.us" "u@s.whatsapp.net" false =
      handleCommand cfgEx regEx wMsg2 "!pong" "chat1@g.us" "u@s.whatsapp.net"
        false := by
  obtain ⟨h1, h2, h3⟩ := handleCommand_execute_failure cfgEx regEx wMsg1 "!ping"
    "chat1@g.us" "u@s.whatsapp.net" false cmdBoom "boom" (by rfl) (by rfl)
  exact ⟨h1, h2, h3 wMsg2 "!pong" "chat1@g.us" "u@s.whatsapp.net" false⟩

end Megan

namespace Megan

/-! ## Claim theorems: chatbot -/

/-- C8 counterexample: with a failing AI provider, chat returns a
structured failure whose response field carries a fallback text, but
handleChatbot sends a reply only when success is true — so the sender
receives no message at all. -/
theorem chatbot_failure_silent_cex :
    handleChatbotSends cfgEx (chat hFail "hello" 1) "u@s.whatsapp.net" = [] ∧
    (chat hFail "hello" 1).success = false ∧
    (chat hFail "hello" 1).response = fallbackResponse "hello" 1 := by
  exact ⟨rfl, rfl, rfl⟩

/-- C8 amended: when the AI provider call fails, chat never raises and
returns a structured failure result carrying a fallback textual
response, but the orchestrator relays a reply only on success, so the
sender receives no message rather than the fallback text. -/
theorem chatbot_failure_fallback_not_relayed
    (cfg : BotConfig) (handler : String → ChatProviderResult)
    (prompt : String) (rand : Fin 7) (fromJid : String)
    (hfail : (handler prompt).success = false) :
    (chat handler prompt rand).success = false ∧
    (chat handler prompt rand).response = fallbackResponse prompt rand ∧
    handleChatbotSends cfg (chat handler prompt rand) fromJid = [] := by
  have hc : chat handler prompt rand =
      { success := false
        response := fallbackResponse prompt rand
        provider := "fallback"
        error := (handler prompt).error } := by
    rw [chat]
    simp [hfail]
  rw [hc]
  exact ⟨rfl, rfl, rfl⟩

/-- Witness for the amended C8 with the concrete failing provider. -/
theorem chatbot_failure_fallback_not_relayed_witness :
    (chat hFail "hi" 2).success = false ∧
    (chat hFail "hi" 2).response = fallbackResponse "hi" 2 ∧
    handleChatbotSends cfgEx (chat hFail "hi" 2) "u@s.whatsapp.net" = [] :=
  chatbot_failure_fallback_not_relayed cfgEx hFail "hi" 2 "u@s.whatsapp.net" rfl

/-! ## Helper lemmas: conversation history -/

/-- Project a store-level run of addToHistory calls onto one user: the
resulting history of u is the fold of that user's entries alone. -/
theorem applyHistCalls_proj (calls : List (String × HistEntry))
    (s : HistStore) (u : String) :
    getHistory (applyHistCalls s calls) u =
      List.foldl addToHistory (s u)
        ((calls.filter (fun c => c.1 == u)).map (fun c => c.2)) := by
  induction calls generalizing s with
  | nil => rfl
  | cons c rest ih =>
    show getHistory (applyHistCalls (addToHistoryStore s c.1 c.2) rest) u = _
    rw [ih]
    by_cases hc : c.1 = u
    · have hsel : addToHistoryStore s c.1 c.2 u = addToHistory (s u) c.2 := by
        simp [addToHistoryStore, hc]
      rw [hsel]
      simp [List.filter_cons, hc]
    · have hsel : addToHistoryStore s c.1 c.2 u = s u := by
        simp [addToHistoryStore]
        intro h
        exact absurd h.symm hc
      rw [hsel]
      have : (c.1 == u) = false := by
        simp [hc]
      simp [List.filter_cons, this]

/-- Folding addToHistory from the empty list keeps exactly the last
maxHistory entries, in order. -/
theorem foldl_addToHistory (msgs : List HistEntry) :
    List.foldl addToHistory [] msgs =
      msgs.drop (msgs.length - maxHistory) := by
  induction msgs using List.reverseRecOn with
  | nil => rfl
  | append_singleton xs e ih =>
    rw [List.foldl_append]
    show addToHistory (List.foldl addToHistory [] xs) e = _
    rw [ih, addToHistory]
    have hsplit : xs.drop (xs.length - maxHistory) ++ [e] =
        (xs ++ [e]).drop (xs.length - maxHistory) := by
      rw [List.drop_append_of_le_length (by omega)]
    by_cases hx : xs.length < maxHistory
    · have h0 : xs.length - maxHistory = 0 := by omega
      have h1 : (xs ++ [e]).length - maxHistory = 0 := by
        simp [List.length_append]; omega
      simp only [hsplit, h0, h1, List.drop_zero]
      rw [if_neg]
      simp [List.length_append]
      omega
    · have hlen : (xs.drop (xs.length - maxHistory) ++ [e]).length =
          maxHistory + 1 := by
        simp [List.length_append, List.length_drop]
        omega
      rw [if_pos (by omega)]
      rw [hlen, hsplit]
      rw [List.drop_drop]
      congr 1
      simp [List.length_append]
      omega

/-- C9: starting from an empty store, after any sequence of
addToHistory calls (for any mix of users), each user's stored history
never exceeds maxHistory = 10 entries, and getHistory returns exactly
the most recent of that user's entries, in insertion order. -/
theorem history_bounded_recent (calls : List (String × HistEntry)) (u : String) :
    (getHistory (applyHistCalls emptyHist calls) u).length ≤ maxHistory ∧
    getHistory (applyHistCalls emptyHist calls) u =
      ((calls.filter (fun c => c.1 == u)).map (fun c => c.2)).drop
        (((calls.filter (fun c => c.1 == u)).map (fun c => c.2)).length -
          maxHistory) := by
  have hproj := applyHistCalls_proj calls emptyHist u
  have hfold :=
    foldl_addToHistory ((calls.filter (fun c => c.1 == u)).map (fun c => c.2))
  constructor
  · rw [hproj]
    show (List.foldl addToHistory [] _).length ≤ maxHistory
    rw [hfold, List.length_drop]
    omega
  · rw [hproj]
    exact hfold

/-! ## Claim theorems: outgoing footer -/

/-- C10: the footer transform of sendMessage is idempotent — text that
already contains the channel link passes through unchanged, and applying
the transform twice equals applying it once (the footer is never
duplicated). -/
theorem addFooter_idempotent (cfg : BotConfig) (t : String) :
    (jsIncludes t cfg.CHANNEL_LINK → addFooter cfg t = t) ∧
    addFooter cfg (addFooter cfg t) = addFooter cfg t := by
  constructor
  · intro h
    rw [addFooter, if_neg]
    intro hcontra
    exact hcontra.2 h
  · by_cases h0 : t = ""
    · have ht : addFooter cfg t = t := by
        rw [addFooter, if_neg]
        intro hcontra
        exact hcontra.1 h0
      rw [ht, ht]
    · by_cases hinc : jsIncludes t cfg.CHANNEL_LINK
      · have ht : addFooter cfg t = t := by
          rw [addFooter, if_neg]
          intro hcontra
          exact hcontra.2 hinc
        rw [ht, ht]
      · have ht : addFooter cfg t = t ++ channelFooter cfg := by
          rw [addFooter, if_pos ⟨h0, hinc⟩]
        rw [ht]
        have hinc2 : jsIncludes (t ++ channelFooter cfg) cfg.CHANNEL_LINK := by
          show cfg.CHANNEL_LINK.data <:+: (t ++ channelFooter cfg).data
          have hdata : (t ++ channelFooter cfg).data =
              (t.data ++ ("\n\n📢 *" ++ cfg.BOT_NAME ++ "*\n").data) ++
                cfg.CHANNEL_LINK.data := by
            simp [channelFooter, String.data_append, List.append_assoc]
          rw [hdata]
          exact (List.suffix_append _ _).isInfix
        rw [addFooter, if_neg]
        intro hcontra
        exact hcontra.2 hinc2

/-- Witness for C10: a text that already contains the channel link is
passed through unchanged, and the transform is idempotent on it. -/
theorem addFooter_idempotent_witness :
    addFooter cfgEx "see wa.me/channel now" = "see wa.me/channel now" ∧
    addFooter cfgEx (addFooter cfgEx "see wa.me/channel now") =
      addFooter cfgEx "see wa.me/channel now" :=
  ⟨(addFooter_idempotent cfgEx "see wa.me/channel now").1 (by decide),
    (addFooter_idempotent cfgEx "see wa.me/channel now").2⟩

end Megan

namespace Megan

/-- Witness for C1: two writes with the same key ("m1", "chat1@g.us")
but different conversation content; the read returns the second record
and both writes incremented the counter. -/
theorem addMessage_last_write_wins_witness :
    getMessage ((addMessage ((addMessage cacheS0 1 wMsg1).1) 2 wMsg2).1)
        wMsg2.key.id (some wMsg2.key.remoteJid) = some (rowOf 2 wMsg2) ∧
    ((addMessage ((addMessage cacheS0 1 wMsg1).1) 2 wMsg2).1).totalMessages =
      ((addMessage cacheS0 1 wMsg1).1).totalMessages + 1 ∧
    ((addMessage cacheS0 1 wMsg1).1).totalMessages = cacheS0.totalMessages + 1 :=
  addMessage_last_write_wins cacheS0 1 2 wMsg1 wMsg2 rfl (by decide) (by decide)
    (by decide) rfl rfl

end Megan
